import Mathlib

/-!
Shallow embedding of the servoshell runtime coordinator
(`src/parser.rs`, `src/window.rs`, `src/src/app.rs`,
`src/src/running_app_state.rs`) together with proofs about the
window/view collection model, the per-tick command protocol, the
exit state machine and the location-bar address resolver.

Rust machine-level details irrelevant to the verified properties
(reference counting, `RefCell` interior mutability) are rendered as
explicit state passing; external collaborators (the Servo URL parser,
the public-suffix oracle, the engine event pump) are parameters of the
embedded functions, with small concrete models used to instantiate
theorems on concrete inputs.
-/

namespace ServoShell

/- ### String operations (embedding of the Rust `str` functions used by the source) -/

/-- Embedding of Rust `str::contains(char)`. -/
def strContains (s : String) (c : Char) : Bool :=
  s.data.contains c

/-- Embedding of Rust `str::starts_with(char)`. -/
def startsWithChar (s : String) (c : Char) : Bool :=
  match s.data with
  | [] => false
  | a :: _ => a == c

/-- Embedding of Rust `str::is_empty`. -/
def strIsEmpty (s : String) : Bool :=
  s.data.isEmpty

/-- Embedding of Rust `str::trim` (drop leading and trailing whitespace;
the ASCII whitespace classifier suffices for every input considered here). -/
def trimStr (s : String) : String :=
  ⟨((s.data.dropWhile Char.isWhitespace).reverse.dropWhile Char.isWhitespace).reverse⟩

/-- String concatenation, as produced by the Rust `format!` calls in the source. -/
def strCat (a b : String) : String :=
  ⟨a.data ++ b.data⟩

/-- Number of occurrences of a character in a character list. -/
def countChar (c : Char) : List Char → Nat
  | [] => 0
  | a :: rest => (if a == c then 1 else 0) + countChar c rest

/-- Embedding of Rust `s.split(c).count()`: number of separators plus one. -/
def segmentCount (s : String) (c : Char) : Nat :=
  countChar c s.data + 1

/-- ASCII lowercasing of a whole string (host normalization in the URL model). -/
def lowerStr (s : String) : String :=
  ⟨s.data.map Char.toLower⟩

/-- Replace every (non-overlapping, left-to-right) occurrence of the literal
token `%s` in a character list, as Rust `str::replace("%s", rep)` does. -/
def replacePercentSAux (rep : List Char) : List Char → List Char
  | [] => []
  | '%' :: 's' :: rest => rep ++ replacePercentSAux rep rest
  | c :: rest => c :: replacePercentSAux rep rest

/-- Embedding of Rust `searchpage.replace("%s", request)`. -/
def replacePercentS (s rep : String) : String :=
  ⟨replacePercentSAux rep.data s.data⟩

/- ### Address resolver (embedding of `src/parser.rs`)

The resolver is parameterized by its two external collaborators:
`parse` embeds `servo::ServoUrl::parse` (returning the normalized URL
on success) and `isRegDomain` embeds `servo::is_reg_domain`. -/

/-- Embedding of `try_as_file` (`src/parser.rs`). -/
def tryAsFile (parse : String → Option String) (request : String) : Option String :=
  if startsWithChar request '/' then parse (strCat "file://" request)
  else none

/-- Embedding of the local `is_domain_like` closure of `try_as_domain`
(`src/parser.rs`); Rust `&&` binds tighter than `||`. -/
def isDomainLike (s : String) : Bool :=
  (!startsWithChar s '/' && strContains s '/') ||
    (!strContains s ' ' && !startsWithChar s '.' && segmentCount s '.' > 1)

/-- Embedding of `try_as_domain` (`src/parser.rs`). -/
def tryAsDomain (parse : String → Option String) (isRegDomain : String → Bool)
    (request : String) : Option String :=
  if (!strContains request ' ' && isRegDomain request) || isDomainLike request then
    parse (strCat "https://" request)
  else none

/-- Embedding of `try_as_search_page` (`src/parser.rs`). -/
def tryAsSearchPage (parse : String → Option String) (request searchpage : String) :
    Option String :=
  if strIsEmpty request then none
  else parse (replacePercentS searchpage request)

/-- Embedding of `location_bar_input_to_url` (`src/parser.rs`); the
`Option::or_else` chain is rendered as nested matches. -/
def locationBarInputToUrl (parse : String → Option String) (isRegDomain : String → Bool)
    (request searchpage : String) : Option String :=
  let request := trimStr request
  match parse request with
  | some url => some url
  | none =>
    match tryAsFile parse request with
    | some url => some url
    | none =>
      match tryAsDomain parse isRegDomain request with
      | some url => some url
      | none => tryAsSearchPage parse request searchpage

/- ### Concrete models of the external collaborators -/

/-- Percent-encode spaces, as standard address parsing does in path and query
parts; used by the concrete parser model below. -/
def encodeSpaces : List Char → List Char
  | [] => []
  | c :: rest => (if c == ' ' then ['%', '2', '0'] else [c]) ++ encodeSpaces rest

/-- Modelled from the spec: the external standard address parser
(`servo::ServoUrl::parse`, not part of this repository). Per spec §4.1 it
recognizes fully-qualified addresses with `data:`, `file:` and `https://`
schemes; for `https://` addresses the host is lowercased, an empty path
becomes `/`, and illegal characters such as spaces in the path or query are
percent-encoded, while a space in the host position makes parsing fail.
Used only to instantiate theorems that hold for every parser. -/
def urlParseModel (s : String) : Option String :=
  let cs := s.data
  if cs.isEmpty then none
  else if "data:".data.isPrefixOf cs || "file://".data.isPrefixOf cs then some s
  else if "https://".data.isPrefixOf cs then
    let rest := cs.drop 8
    let host := rest.takeWhile (fun c => c ≠ '/')
    let path := rest.dropWhile (fun c => c ≠ '/')
    if host.isEmpty || host.contains ' ' then none
    else
      let encodedPath := if path.isEmpty then ['/'] else encodeSpaces path
      some ⟨"https://".data ++ host.map Char.toLower ++ encodedPath⟩
  else none

/-- Split a character list at every occurrence of a separator character. -/
def splitChar (c : Char) : List Char → List (List Char)
  | [] => [[]]
  | a :: rest =>
    if a == c then [] :: splitChar c rest
    else
      match splitChar c rest with
      | [] => [[a]]
      | seg :: segs => (a :: seg) :: segs

/-- Modelled from the spec: the external public-suffix oracle
(`servo::is_reg_domain`, not part of this repository): a dotted name whose
labels are non-empty and space-free and whose final label is a recognized
public suffix (a small sample suffices for concrete instantiations). -/
def isRegDomainModel (s : String) : Bool :=
  let labels := splitChar '.' s.data
  labels.length ≥ 2 &&
    labels.all (fun l => !l.isEmpty && !l.contains ' ') &&
    ["com".data, "org".data, "net".data, "md".data, "lol".data].contains
      (labels.reverse.headD [])

/- ### View collection (embedding of `WebViewCollection`, `src/src/running_app_state.rs`)

`WebViewId` is rendered as `Nat`; a `WebView` is the engine-owned handle, of
which the coordinator observes the identifier and the shown/focused state it
sets through `show`/`focus`/`hide`/`blur`. `HashMap<WebViewId, WebView>` is
rendered as an association list with unique keys. -/

structure WebView where
  id : Nat
  shown : Bool
  focused : Bool
deriving DecidableEq, Repr

/-- First value stored under a key in an association list, as `HashMap::get`. -/
def lookupAssoc (id : Nat) : List (Nat × WebView) → Option WebView
  | [] => none
  | p :: rest => if p.1 = id then some p.2 else lookupAssoc id rest

/-- Drop the entry stored under a key, as `HashMap::remove`. -/
def removeAssoc (id : Nat) (l : List (Nat × WebView)) : List (Nat × WebView) :=
  l.filter (fun p => p.1 ≠ id)

structure WebViewCollection where
  webviews : List (Nat × WebView)
  creation_order : List Nat
  active_webview_id : Option Nat
deriving DecidableEq, Repr

/-- Embedding of `WebViewCollection::add`: push onto `creation_order`, insert
into the map (`HashMap::insert` replaces any entry with the same key). -/
def WebViewCollection.add (c : WebViewCollection) (webview : WebView) : WebViewCollection :=
  { c with
    creation_order := c.creation_order ++ [webview.id],
    webviews := (webview.id, webview) :: removeAssoc webview.id c.webviews }

/-- Embedding of `WebViewCollection::contains`. -/
def WebViewCollection.contains (c : WebViewCollection) (id : Nat) : Bool :=
  (lookupAssoc id c.webviews).isSome

/-- Embedding of `WebViewCollection::active`. -/
def WebViewCollection.active (c : WebViewCollection) : Option WebView :=
  c.active_webview_id.bind (fun id => lookupAssoc id c.webviews)

/-- Embedding of `WebViewCollection::is_empty`. -/
def WebViewCollection.is_empty (c : WebViewCollection) : Bool :=
  c.webviews.isEmpty

/-- Body of `WebViewCollection::activate_webview` after its assertion: record
the new active id, then walk `all_in_creation_order` showing/focusing the
activated view and hiding/blurring every other one. -/
def WebViewCollection.activateCore (c : WebViewCollection) (id_to_activate : Nat) :
    WebViewCollection :=
  { c with
    active_webview_id := some id_to_activate,
    webviews := c.webviews.map (fun p =>
      if p.1 ∈ c.creation_order then
        if p.1 = id_to_activate then (p.1, { p.2 with shown := true, focused := true })
        else (p.1, { p.2 with shown := false, focused := false })
      else p) }

/-- Embedding of `WebViewCollection::activate_webview`
(`src/src/running_app_state.rs:94`): the `assert!` that the identifier is
known is rendered as `Except.error` (a Rust panic never returns normally). -/
def WebViewCollection.activate_webview (c : WebViewCollection) (id_to_activate : Nat) :
    Except String WebViewCollection :=
  if id_to_activate ∈ c.creation_order then Except.ok (c.activateCore id_to_activate)
  else Except.error "assertion failed: self.creation_order.contains"

/-- Embedding of `WebViewCollection::activate_webview_by_index`
(`src/src/running_app_state.rs:109`): resolve through `creation_order[index]`,
panicking (`expect`) on an out-of-range index, then delegate to
`activate_webview`. -/
def WebViewCollection.activate_webview_by_index (c : WebViewCollection) (index : Nat) :
    Except String WebViewCollection :=
  match c.creation_order.get? index with
  | some id => c.activate_webview id
  | none => Except.error "Tried to activate an unknown WebView"

/-- Embedding of `WebViewCollection::remove` (`src/src/running_app_state.rs:48`):
drop the id from `creation_order` (`Vec::retain`) and from the map, and if it
was the active view, clear the designation and re-activate the last element of
the remaining `creation_order`, if any. The inner `activate_webview` call is
rendered by its assertion-free body `activateCore`, its assertion being
satisfied (the activated id is a member of the new `creation_order`). -/
def WebViewCollection.remove (c : WebViewCollection) (id : Nat) :
    WebViewCollection × Option WebView :=
  let order := c.creation_order.filter (fun webview_id => webview_id ≠ id)
  let removed_webview := lookupAssoc id c.webviews
  let c1 : WebViewCollection :=
    { webviews := removeAssoc id c.webviews,
      creation_order := order,
      active_webview_id := c.active_webview_id }
  if c.active_webview_id = some id then
    let c2 := { c1 with active_webview_id := none }
    match order.getLast? with
    | some newest => (c2.activateCore newest, removed_webview)
    | none => (c2, removed_webview)
  else (c1, removed_webview)

/- ### Window (embedding of `ServoShellWindow`, `src/window.rs`)

The same window object is named `BrowserWindow` by
`src/src/running_app_state.rs` and `src/src/app.rs`. Its `Cell`/`RefCell`
interior mutability is rendered as plain fields. Two parts of its state live
behind interfaces whose code is not under `src/`:
`embedder_controls` models the platform window's embedder-control state that
`dismiss_embedder_controls_for_webview` clears (keyed by webview identifier),
and `command_buffer` models the inbound user-interface command buffer drained
by `take_user_interface_commands` (spec §4.3: an atomic read-and-reset). -/

/-- Embedding of `UserInterfaceCommand` (`src/src/running_app_state.rs:120`). -/
inductive UserInterfaceCommand where
  | Go (location : String)
  | Back
  | Forward
  | Reload
  | NewWebView
  | CloseWebView (id : Nat)
deriving DecidableEq, Repr

structure ServoShellWindow where
  webview_collection : WebViewCollection
  close_scheduled : Bool
  needs_update : Bool
  needs_repaint : Bool
  pending_favicon_loads : List Nat
  /-- Modelled from the spec: embedder controls shown on the platform window,
  keyed by webview identifier (the platform window type is not under `src/`). -/
  embedder_controls : List (Nat × Nat)
  /-- Modelled from the spec: the per-tick inbound command buffer drained by
  `take_user_interface_commands` (not under `src/`; spec §4.3). -/
  command_buffer : List UserInterfaceCommand
deriving DecidableEq, Repr

/-- Embedding of `ServoShellWindow::should_close` (`src/window.rs:103`). -/
def ServoShellWindow.should_close (w : ServoShellWindow) : Bool :=
  w.webview_collection.is_empty || w.close_scheduled

/-- Embedding of `ServoShellWindow::set_needs_update`. -/
def ServoShellWindow.set_needs_update (w : ServoShellWindow) : ServoShellWindow :=
  { w with needs_update := true }

/-- Embedding of `ServoShellWindow::set_needs_repaint`. -/
def ServoShellWindow.set_needs_repaint (w : ServoShellWindow) : ServoShellWindow :=
  { w with needs_repaint := true }

/-- Embedding of `ServoShellWindow::contains_webview`. -/
def ServoShellWindow.contains_webview (w : ServoShellWindow) (id : Nat) : Bool :=
  w.webview_collection.contains id

/-- Embedding of `ServoShellWindow::active_webview`. -/
def ServoShellWindow.active_webview (w : ServoShellWindow) : Option WebView :=
  w.webview_collection.active

/-- Embedding of `ServoShellWindow::add_webview` (`src/window.rs:135`). -/
def ServoShellWindow.add_webview (w : ServoShellWindow) (webview : WebView) : ServoShellWindow :=
  { w with
    webview_collection := w.webview_collection.add webview,
    needs_update := true,
    needs_repaint := true }

/-- Embedding of `ServoShellWindow::close_webview` (`src/window.rs:190`): if
`WebViewCollection::remove` returns `None` the method returns early; otherwise
it dismisses the platform window's embedder controls keyed by the closed view
and sets both dirty flags. -/
def ServoShellWindow.close_webview (w : ServoShellWindow) (webview_id : Nat) : ServoShellWindow :=
  let removal := w.webview_collection.remove webview_id
  let w' := { w with webview_collection := removal.1 }
  match removal.2 with
  | none => w'
  | some _ =>
    { w' with
      embedder_controls := w'.embedder_controls.filter (fun p => p.1 ≠ webview_id),
      needs_update := true,
      needs_repaint := true }

/-- Embedding of `ServoShellWindow::create_and_activate_toplevel_webview`
(`src/window.rs:66`): build a fresh webview (the engine supplies a fresh
identifier, modelled by the `fresh` parameter), add it via `add_webview`, then
activate it — the activation assertion holds because the id was just appended
to `creation_order`, so the assertion-free body `activateCore` is used. -/
def ServoShellWindow.create_and_activate_toplevel_webview (w : ServoShellWindow)
    (fresh : Nat) : ServoShellWindow :=
  let webview : WebView := { id := fresh, shown := false, focused := false }
  let w' := w.add_webview webview
  { w' with
    webview_collection := w'.webview_collection.activateCore fresh,
    needs_update := true }

/- ### Command application (embedding of
`App::handle_interface_commands_for_window`, `src/src/app.rs:124`)

Outbound calls into the engine are recorded as a trace of `EngineCall`s; the
`fresh` counter stands for the engine's supply of fresh webview identifiers.
The Rust `for` loop over the drained commands, with its `break` on a failed
location resolution, is rendered as structural recursion over the list. -/

/-- Outbound calls to the engine component made while applying commands. -/
inductive EngineCall where
  | load (webview : Nat) (url : String)
  | goBack (webview : Nat) (n : Nat)
  | goForward (webview : Nat) (n : Nat)
  | reload (webview : Nat)
  | createWebView (url : String)
deriving DecidableEq, Repr

/-- Embedding of the command loop of `handle_interface_commands_for_window`
(`src/src/app.rs:131`), parameterized by the external URL parser and
public-suffix oracle and by the window's configured search page. -/
def handleInterfaceCommandsForWindow (parse : String → Option String)
    (isRegDomain : String → Bool) (searchpage : String) :
    List UserInterfaceCommand → ServoShellWindow → Nat →
      ServoShellWindow × Nat × List EngineCall
  | [], w, fresh => (w, fresh, [])
  | command :: rest, w, fresh =>
    match command with
    | .Go location =>
      let w := w.set_needs_update
      match locationBarInputToUrl parse isRegDomain location searchpage with
      | none => (w, fresh, [])
      | some url =>
        let calls :=
          match w.active_webview with
          | some active_webview => [EngineCall.load active_webview.id url]
          | none => []
        let next := handleInterfaceCommandsForWindow parse isRegDomain searchpage rest w fresh
        (next.1, next.2.1, calls ++ next.2.2)
    | .Back =>
      let calls :=
        match w.active_webview with
        | some active_webview => [EngineCall.goBack active_webview.id 1]
        | none => []
      let next := handleInterfaceCommandsForWindow parse isRegDomain searchpage rest w fresh
      (next.1, next.2.1, calls ++ next.2.2)
    | .Forward =>
      let calls :=
        match w.active_webview with
        | some active_webview => [EngineCall.goForward active_webview.id 1]
        | none => []
      let next := handleInterfaceCommandsForWindow parse isRegDomain searchpage rest w fresh
      (next.1, next.2.1, calls ++ next.2.2)
    | .Reload =>
      let w := w.set_needs_update
      let calls :=
        match w.active_webview with
        | some active_webview => [EngineCall.reload active_webview.id]
        | none => []
      let next := handleInterfaceCommandsForWindow parse isRegDomain searchpage rest w fresh
      (next.1, next.2.1, calls ++ next.2.2)
    | .NewWebView =>
      let w := w.set_needs_update
      let w := w.create_and_activate_toplevel_webview fresh
      let next :=
        handleInterfaceCommandsForWindow parse isRegDomain searchpage rest w (fresh + 1)
      (next.1, next.2.1, EngineCall.createWebView "resource:///newtab.html" :: next.2.2)
    | .CloseWebView id =>
      let w := w.set_needs_update
      let w := w.close_webview id
      let next := handleInterfaceCommandsForWindow parse isRegDomain searchpage rest w fresh
      (next.1, next.2.1, next.2.2)

/- ### Application coordinator (embedding of `RunningAppState`,
`src/src/running_app_state.rs`)

`HashMap<BrowserWindowId, Rc<BrowserWindow>>` is rendered as an association
list from window identifiers to window state; `Cell<bool>` as a plain field.
Fields irrelevant to the verified properties (gamepad support, preferences,
the Servo handle) are omitted. -/

structure RunningAppState where
  windows : List (Nat × ServoShellWindow)
  exit_scheduled : Bool
deriving DecidableEq, Repr

/-- Embedding of `RunningAppState::schedule_exit`. -/
def RunningAppState.schedule_exit (s : RunningAppState) : RunningAppState :=
  { s with exit_scheduled := true }

/-- Embedding of the window-pruning `retain` of `spin_event_loop`
(`src/src/running_app_state.rs:217`): keep a window exactly when exit has not
been scheduled and the window should not close. -/
def pruneWindows (s : RunningAppState) : RunningAppState :=
  { s with
    windows := s.windows.filter (fun p => !s.exit_scheduled && !p.2.should_close) }

/-- Embedding of `RunningAppState::spin_event_loop`
(`src/src/running_app_state.rs:204`). The two opaque external phases are
parameters: `engineStep` is `servo.spin_event_loop()` together with the
gamepad notifications (delegate events may mutate the coordinator state before
it returns), and `uiRefresh` is the per-window
`update_and_request_repaint_if_necessary` pass (flag read-and-reset plus
interface refresh). After them the window set is pruned, exit is scheduled if
no window remains, and `!exit_scheduled` is returned. -/
def spinEventLoop (engineStep uiRefresh : RunningAppState → RunningAppState)
    (s : RunningAppState) : RunningAppState × Bool :=
  let s1 := engineStep s
  let s2 := uiRefresh s1
  let s3 := pruneWindows s2
  let s4 := if s3.windows.isEmpty then s3.schedule_exit else s3
  (s4, !s4.exit_scheduled)

/-- Iterated ticks: the coordinator state after `n` further calls of
`spin_event_loop`. -/
def spinIterState (engineStep uiRefresh : RunningAppState → RunningAppState) :
    Nat → RunningAppState → RunningAppState
  | 0, s => s
  | n + 1, s => spinIterState engineStep uiRefresh n (spinEventLoop engineStep uiRefresh s).1

/-- Embedding of `RunningAppState::maybe_window_for_webview_id`
(`src/src/running_app_state.rs:238`): linear scan over the windows for the one
whose collection contains the webview; the found window is reported by its
identifier. -/
def RunningAppState.maybe_window_for_webview_id (s : RunningAppState) (webview_id : Nat) :
    Option Nat :=
  (s.windows.find? (fun p => p.2.contains_webview webview_id)).map (fun p => p.1)

/-- Embedding of `RunningAppState::window_for_webview_id`
(`src/src/running_app_state.rs:250`): the `expect` on an unknown webview
identifier is rendered as `Except.error` (a Rust panic never returns
normally). -/
def RunningAppState.window_for_webview_id (s : RunningAppState) (webview_id : Nat) :
    Except String Nat :=
  match s.maybe_window_for_webview_id webview_id with
  | some window => Except.ok window
  | none => Except.error "Looking for unexpected WebView"

/- ### Snapshot iteration (embedding of
`RunningAppState::foreach_window_and_interface_commands`,
`src/src/running_app_state.rs:227`)

Here the `Rc` sharing of windows matters: the snapshot clones the `Rc`
handles, so a window removed from (or added to) the live map by the callback
still refers to the same object. The embedding therefore separates the heap
of window objects (`store`) from the keys of the live `windows` map (`live`).
`take_user_interface_commands` is modelled from the spec (§4.3): an atomic
drain of the window's inbound buffer. -/

structure WindowStore where
  store : List (Nat × ServoShellWindow)
  live : List Nat
deriving DecidableEq, Repr

/-- Look up a window object in the heap. -/
def lookupWindow (id : Nat) : List (Nat × ServoShellWindow) → Option ServoShellWindow
  | [] => none
  | p :: rest => if p.1 = id then some p.2 else lookupWindow id rest

/-- Modelled from the spec: `BrowserWindow::take_user_interface_commands`
(not under `src/`; spec §4.3 — atomically drains the inbound buffer, returning
its contents and leaving it empty). Returns the updated heap and the drained
commands of the given window. -/
def takeUserInterfaceCommands (heap : List (Nat × ServoShellWindow)) (id : Nat) :
    List (Nat × ServoShellWindow) × List UserInterfaceCommand :=
  (heap.map (fun p => if p.1 = id then (p.1, { p.2 with command_buffer := [] }) else p),
   match lookupWindow id heap with
   | some w => w.command_buffer
   | none => [])

/-- Recursion of `foreach_window_and_interface_commands` over the snapshot:
for each snapshotted window, drain its buffer and hand the drained commands to
the callback (which may mutate the whole state, including the live window
set); the returned trace records each callback invocation. -/
def foreachGo (callback : WindowStore → Nat → List UserInterfaceCommand → WindowStore) :
    List Nat → WindowStore → WindowStore × List (Nat × List UserInterfaceCommand)
  | [], s => (s, [])
  | id :: rest, s =>
    let drained := takeUserInterfaceCommands s.store id
    let s' := callback { s with store := drained.1 } id drained.2
    let next := foreachGo callback rest s'
    (next.1, (id, drained.2) :: next.2)

/-- Embedding of `RunningAppState::foreach_window_and_interface_commands`
(`src/src/running_app_state.rs:227`): clone the current window list (the
snapshot), then invoke the callback once per snapshotted window with its
drained commands. -/
def foreachWindowAndInterfaceCommands
    (callback : WindowStore → Nat → List UserInterfaceCommand → WindowStore)
    (s : WindowStore) : WindowStore × List (Nat × List UserInterfaceCommand) :=
  foreachGo callback s.live s

/- ### Derived invariant -/

/-- The §3 invariant of a view collection, in decidable form: the active
identifier, when set, is present in `creation_order`. -/
def ActiveInvB (c : WebViewCollection) : Bool :=
  match c.active_webview_id with
  | none => true
  | some a => decide (a ∈ c.creation_order)

/- ### Concrete fixtures used to instantiate the theorems -/

def wvZero : WebView := { id := 0, shown := true, focused := true }

def wvOne : WebView := { id := 1, shown := false, focused := false }

/-- A collection holding one webview (id 0), which is active. -/
def collOne : WebViewCollection :=
  { webviews := [(0, wvZero)], creation_order := [0], active_webview_id := some 0 }

/-- A collection holding two webviews (ids 0 and 1); the active one is id 1. -/
def collTwo : WebViewCollection :=
  { webviews := [(0, wvZero), (1, wvOne)], creation_order := [0, 1],
    active_webview_id := some 1 }

/-- A live window holding `collOne`. -/
def winOne : ServoShellWindow :=
  { webview_collection := collOne, close_scheduled := false, needs_update := false,
    needs_repaint := false, pending_favicon_loads := [], embedder_controls := [(0, 7)],
    command_buffer := [] }

/-- A window scheduled to close. -/
def winClosing : ServoShellWindow :=
  { winOne with close_scheduled := true }

/-- A coordinator state with one live window and exit already scheduled. -/
def stateExit : RunningAppState :=
  { windows := [(1, winOne)], exit_scheduled := true }

/-- A running coordinator state with one live and one closing window. -/
def stateRun : RunningAppState :=
  { windows := [(1, winOne), (2, winClosing)], exit_scheduled := false }

/-- A window store with one live window holding one buffered command. -/
def storeOne : WindowStore :=
  { store := [(1, { winOne with command_buffer := [UserInterfaceCommand.Reload] })],
    live := [1] }

/- ### Helper lemmas -/

lemma lookupAssoc_none_iff (id : Nat) (l : List (Nat × WebView)) :
    lookupAssoc id l = none ↔ ∀ p ∈ l, p.1 ≠ id := by
  induction l with
  | nil => simp [lookupAssoc]
  | cons p rest ih =>
    by_cases h : p.1 = id
    · simp [lookupAssoc, h]
    · simp [lookupAssoc, h, ih]

lemma lookupAssoc_removeAssoc (id : Nat) (l : List (Nat × WebView)) :
    lookupAssoc id (removeAssoc id l) = none := by
  rw [lookupAssoc_none_iff]
  intro p hp
  simp only [removeAssoc, List.mem_filter, decide_eq_true_eq] at hp
  exact hp.2

lemma lookupAssoc_map_keys (f : Nat × WebView → Nat × WebView)
    (hf : ∀ p, (f p).1 = p.1) (id : Nat) (l : List (Nat × WebView))
    (h : lookupAssoc id l = none) : lookupAssoc id (l.map f) = none := by
  rw [lookupAssoc_none_iff] at h ⊢
  intro p hp
  obtain ⟨q, hq, rfl⟩ := List.mem_map.mp hp
  rw [hf]
  exact h q hq

lemma activateCore_keys (c : WebViewCollection) (i : Nat) :
    ∀ p, ((fun p : Nat × WebView =>
      if p.1 ∈ c.creation_order then
        if p.1 = i then (p.1, { p.2 with shown := true, focused := true })
        else (p.1, { p.2 with shown := false, focused := false })
      else p) p).1 = p.1 := by
  intro p
  by_cases hmem : p.1 ∈ c.creation_order
  · by_cases heq : p.1 = i
    · subst heq
      simp [hmem]
    · simp [hmem, heq]
  · simp [hmem]

lemma remove_creation_order (c : WebViewCollection) (id : Nat) :
    (c.remove id).1.creation_order = c.creation_order.filter (fun x => x ≠ id) := by
  unfold WebViewCollection.remove
  by_cases hact : c.active_webview_id = some id
  · rw [if_pos hact]
    cases hl : (c.creation_order.filter (fun x => x ≠ id)).getLast? <;>
      simp [hl, WebViewCollection.activateCore]
  · rw [if_neg hact]

lemma remove_webviews_lookup (c : WebViewCollection) (id : Nat) :
    lookupAssoc id (c.remove id).1.webviews = none := by
  unfold WebViewCollection.remove
  by_cases hact : c.active_webview_id = some id
  · rw [if_pos hact]
    cases hl : (c.creation_order.filter (fun x => x ≠ id)).getLast? with
    | none => simpa using lookupAssoc_removeAssoc id c.webviews
    | some newest =>
      simp only [WebViewCollection.activateCore]
      exact lookupAssoc_map_keys _
        (activateCore_keys
          ⟨removeAssoc id c.webviews,
            c.creation_order.filter (fun webview_id => webview_id ≠ id), none⟩ newest)
        id _ (lookupAssoc_removeAssoc id c.webviews)
  · rw [if_neg hact]
    exact lookupAssoc_removeAssoc id c.webviews

lemma remove_active_of_active (c : WebViewCollection) (id : Nat)
    (h : c.active_webview_id = some id) :
    (c.remove id).1.active_webview_id =
      (c.creation_order.filter (fun x => x ≠ id)).getLast? := by
  unfold WebViewCollection.remove
  rw [if_pos h]
  cases hl : (c.creation_order.filter (fun x => x ≠ id)).getLast? <;>
    simp [hl, WebViewCollection.activateCore]

lemma remove_active_of_ne (c : WebViewCollection) (id : Nat)
    (h : ¬c.active_webview_id = some id) :
    (c.remove id).1.active_webview_id = c.active_webview_id := by
  unfold WebViewCollection.remove
  rw [if_neg h]

lemma foreachGo_trace_ids
    (callback : WindowStore → Nat → List UserInterfaceCommand → WindowStore)
    (l : List Nat) (s : WindowStore) :
    (foreachGo callback l s).2.map Prod.fst = l := by
  induction l generalizing s with
  | nil => rfl
  | cons id rest ih => simp [foreachGo, ih]

lemma lookupWindow_take (heap : List (Nat × ServoShellWindow)) (i : Nat)
    (w : ServoShellWindow) (hw : lookupWindow i heap = some w) :
    lookupWindow i (takeUserInterfaceCommands heap i).1 =
      some { w with command_buffer := [] } := by
  unfold takeUserInterfaceCommands
  induction heap with
  | nil => simp [lookupWindow] at hw
  | cons p rest ih =>
    by_cases hp : p.1 = i
    · rw [lookupWindow, if_pos hp] at hw
      injection hw with hw
      simp [lookupWindow, hp, hw]
    · rw [lookupWindow, if_neg hp] at hw
      simp [lookupWindow, hp, ih hw]

lemma not_mem_of_strContains_false (s : String) (c : Char)
    (h : strContains s c = false) : c ∉ s.data := by
  intro hm
  simp [strContains, List.contains, List.elem_eq_mem, hm] at h

lemma startsWithChar_false_of_strContains_false (s : String) (c : Char)
    (h : strContains s c = false) : startsWithChar s c = false := by
  have hnm := not_mem_of_strContains_false s c h
  unfold startsWithChar
  cases hd : s.data with
  | nil => rfl
  | cons a l =>
    rw [hd] at hnm
    simp only [beq_eq_false_iff_ne, ne_eq]
    intro hac
    exact hnm (hac ▸ List.mem_cons_self a l)

lemma takeWhile_ne_of_not_mem (c : Char) (l : List Char) (h : c ∉ l) :
    l.takeWhile (fun x => x ≠ c) = l := by
  rw [List.takeWhile_eq_self_iff]
  intro x hx
  simp only [ne_eq, decide_eq_true_eq]
  intro he
  exact h (he ▸ hx)

lemma dropWhile_ne_of_not_mem (c : Char) (l : List Char) (h : c ∉ l) :
    l.dropWhile (fun x => x ≠ c) = [] := by
  rw [List.dropWhile_eq_nil_iff]
  intro x hx
  simp only [ne_eq, decide_eq_true_eq]
  intro he
  exact h (he ▸ hx)

lemma data_ne_nil_of_segmentCount (s : String) (c : Char)
    (h : 1 < segmentCount s c) : s.data ≠ [] := by
  intro hnil
  simp [segmentCount, hnil, countChar] at h

/-- The external URL-parser model on an `https://`-prefixed slash-free,
space-free, non-empty token: lowercased host, path `/`. -/
lemma urlParseModel_https (r : String) (hnil : r.data ≠ [])
    (hslash : strContains r '/' = false) (hspace : strContains r ' ' = false) :
    urlParseModel (strCat "https://" r) =
      some (strCat "https://" (strCat (lowerStr r) "/")) := by
  have hcs : (strCat "https://" r).data =
      'h' :: 't' :: 't' :: 'p' :: 's' :: ':' :: '/' :: '/' :: r.data := rfl
  have hnoslash := not_mem_of_strContains_false r '/' hslash
  have htake := takeWhile_ne_of_not_mem '/' r.data hnoslash
  have hdrop := dropWhile_ne_of_not_mem '/' r.data hnoslash
  have hemp : r.data.isEmpty = false := by
    cases hr : r.data with
    | nil => exact absurd hr hnil
    | cons a l => rfl
  rw [urlParseModel, hcs]
  simp only [List.isEmpty_cons, Bool.false_eq_true, if_false]
  have hdata : ¬("data:".data.isPrefixOf
      ('h' :: 't' :: 't' :: 'p' :: 's' :: ':' :: '/' :: '/' :: r.data) = true) := by
    simp [List.isPrefixOf]
  have hfile : ¬("file://".data.isPrefixOf
      ('h' :: 't' :: 't' :: 'p' :: 's' :: ':' :: '/' :: '/' :: r.data) = true) := by
    simp [List.isPrefixOf]
  have hhttps : "https://".data.isPrefixOf
      ('h' :: 't' :: 't' :: 'p' :: 's' :: ':' :: '/' :: '/' :: r.data) = true := by
    simp [List.isPrefixOf]
  simp only [hdata, hfile, hhttps, Bool.false_eq_true, if_false, if_true, Bool.or_self,
    List.drop_succ_cons, List.drop_zero]
  rw [htake, hdrop]
  have hnospace := not_mem_of_strContains_false r ' ' hspace
  simp [hemp, hnospace, strCat, lowerStr, List.append_assoc]

end ServoShell

namespace ServoShell

/- Scratch checks of the resolver against the repository tests (`src/test.rs`). -/
example :
    locationBarInputToUrl urlParseModel isRegDomainModel "data:text/html,a"
      "https://duckduckgo.com/html/?q=%s" = some "data:text/html,a" := by decide

example :
    locationBarInputToUrl urlParseModel isRegDomainModel "README.md"
      "https://duckduckgo.com/html/?q=%s" = some "https://readme.md/" := by decide

example :
    locationBarInputToUrl urlParseModel isRegDomainModel "nic.md/ro"
      "https://duckduckgo.com/html/?q=%s" = some "https://nic.md/ro" := by decide

example :
    locationBarInputToUrl urlParseModel isRegDomainModel "/dev/null"
      "https://duckduckgo.com/html/?q=%s" = some "file:///dev/null" := by decide

example :
    locationBarInputToUrl urlParseModel isRegDomainModel "dragonfruit"
      "https://duckduckgo.com/html/?q=%s" =
      some "https://duckduckgo.com/html/?q=dragonfruit" := by decide

example :
    locationBarInputToUrl urlParseModel isRegDomainModel "3.5 kg in lb"
      "https://duckduckgo.com/html/?q=%s" =
      some "https://duckduckgo.com/html/?q=3.5%20kg%20in%20lb" := by decide

example :
    locationBarInputToUrl urlParseModel isRegDomainModel ".leah.chromebooks.lol"
      "https://duckduckgo.com/html/?q=%s" =
      some "https://duckduckgo.com/html/?q=.leah.chromebooks.lol" := by decide

example :
    locationBarInputToUrl urlParseModel isRegDomainModel "leah.chromebooks.lol."
      "https://duckduckgo.com/html/?q=%s" = some "https://leah.chromebooks.lol./" := by decide

example :
    locationBarInputToUrl urlParseModel isRegDomainModel "foo/bar"
      "https://duckduckgo.com/html/?q=%s" = some "https://foo/bar" := by decide

example :
    locationBarInputToUrl urlParseModel isRegDomainModel ""
      "https://duckduckgo.com/html/?q=%s" = none := by decide

/- ### Claims about the address resolver -/

/-- C5: for every input whose trimmed form parses as a fully-qualified
address (any recognized scheme, spaces included), resolution returns that
address unchanged, for every search template and every public-suffix oracle,
without consulting the file, domain, or search-fallback steps (the theorem
holds for arbitrary `isRegDomain` and `searchpage`, and the result is exactly
the step-1 parse). -/
theorem c5_fully_qualified_returned_unchanged (parse : String → Option String)
    (isRegDomain : String → Bool) (input searchpage u : String)
    (h : parse (trimStr input) = some u) :
    locationBarInputToUrl parse isRegDomain input searchpage = some u := by
  simp [locationBarInputToUrl, h]

theorem c5_witness :
    (urlParseModel (trimStr "data:text/html,a") = some "data:text/html,a" ∧
      locationBarInputToUrl urlParseModel isRegDomainModel "data:text/html,a"
        "https://duckduckgo.com/html/?q=%s" = some "data:text/html,a") ∧
    (urlParseModel (trimStr " data:text/plain,a b c ") = some "data:text/plain,a b c" ∧
      locationBarInputToUrl urlParseModel isRegDomainModel " data:text/plain,a b c "
        "%s" = some "data:text/plain,a b c") :=
  ⟨⟨by decide,
    c5_fully_qualified_returned_unchanged urlParseModel isRegDomainModel
      "data:text/html,a" "https://duckduckgo.com/html/?q=%s" "data:text/html,a" (by decide)⟩,
   ⟨by decide,
    c5_fully_qualified_returned_unchanged urlParseModel isRegDomainModel
      " data:text/plain,a b c " "%s" "data:text/plain,a b c" (by decide)⟩⟩

/-- C6: for every trimmed input that does not parse as fully-qualified and
does not start with a path separator, the resolver attempts the `https://`
construction exactly when `(no space ∧ registrable domain) ∨ domain-likeness`
holds (falling through to the search step when the construction fails to
parse, and going straight to the search step otherwise); and — under the
concrete URL-parser model — every single-token input with an internal dot and
no leading dot, space or slash resolves to `https://<lowercased-input>/`. -/
theorem c6_domain_step_exact (parse : String → Option String)
    (isRegDomain : String → Bool) (input searchpage : String)
    (h1 : parse (trimStr input) = none)
    (h2 : startsWithChar (trimStr input) '/' = false) :
    (locationBarInputToUrl parse isRegDomain input searchpage =
      if (!strContains (trimStr input) ' ' && isRegDomain (trimStr input))
          || isDomainLike (trimStr input) then
        match parse (strCat "https://" (trimStr input)) with
        | some url => some url
        | none => tryAsSearchPage parse (trimStr input) searchpage
      else tryAsSearchPage parse (trimStr input) searchpage) ∧
    (∀ input2 searchpage2,
      urlParseModel (trimStr input2) = none →
      strContains (trimStr input2) ' ' = false →
      strContains (trimStr input2) '/' = false →
      startsWithChar (trimStr input2) '.' = false →
      1 < segmentCount (trimStr input2) '.' →
      locationBarInputToUrl urlParseModel isRegDomainModel input2 searchpage2 =
        some (strCat "https://" (strCat (lowerStr (trimStr input2)) "/"))) := by
  constructor
  · simp only [locationBarInputToUrl, h1, tryAsFile, h2, Bool.false_eq_true, if_false,
      tryAsDomain]
    by_cases hc : (!strContains (trimStr input) ' ' && isRegDomain (trimStr input))
        || isDomainLike (trimStr input)
    · cases hp : parse (strCat "https://" (trimStr input)) <;> simp [hc, hp]
    · simp [hc]
  · intro input2 searchpage2 hparse hspace hslash hdot hseg
    have hnil : (trimStr input2).data ≠ [] := data_ne_nil_of_segmentCount _ '.' hseg
    have hsw : startsWithChar (trimStr input2) '/' = false :=
      startsWithChar_false_of_strContains_false _ '/' hslash
    have hdl : isDomainLike (trimStr input2) = true := by
      simp [isDomainLike, hslash, hspace, hdot, hseg]
    have hdom : tryAsDomain urlParseModel isRegDomainModel (trimStr input2) =
        some (strCat "https://" (strCat (lowerStr (trimStr input2)) "/")) := by
      rw [tryAsDomain, hdl]
      simp only [Bool.or_true, if_true]
      exact urlParseModel_https _ hnil hslash hspace
    simp [locationBarInputToUrl, hparse, tryAsFile, hsw, hdom]

theorem c6_witness :
    (urlParseModel (trimStr "foo/bar") = none ∧
      startsWithChar (trimStr "foo/bar") '/' = false ∧
      locationBarInputToUrl urlParseModel isRegDomainModel "foo/bar" "%s" =
        (if (!strContains (trimStr "foo/bar") ' ' && isRegDomainModel (trimStr "foo/bar"))
            || isDomainLike (trimStr "foo/bar") then
          match urlParseModel (strCat "https://" (trimStr "foo/bar")) with
          | some url => some url
          | none => tryAsSearchPage urlParseModel (trimStr "foo/bar") "%s"
        else tryAsSearchPage urlParseModel (trimStr "foo/bar") "%s")) ∧
    (urlParseModel (trimStr "README.md") = none ∧
      locationBarInputToUrl urlParseModel isRegDomainModel "README.md" "%s" =
        some (strCat "https://" (strCat (lowerStr (trimStr "README.md")) "/"))) :=
  ⟨⟨by decide, by decide,
    (c6_domain_step_exact urlParseModel isRegDomainModel "foo/bar" "%s"
      (by decide) (by decide)).1⟩,
   ⟨by decide,
    (c6_domain_step_exact urlParseModel isRegDomainModel "foo/bar" "%s"
      (by decide) (by decide)).2 "README.md" "%s"
      (by decide) (by decide) (by decide) (by decide) (by decide)⟩⟩

/-- C7: for every trimmed input not matched by the fully-qualified, file, or
domain steps: a non-empty input resolves to the parse of the search template
with the literal token `%s` replaced by the raw input (failing exactly when
that parse fails), and an empty input never resolves, for every search
template. -/
theorem c7_search_fallback_raw_substitution (parse : String → Option String)
    (isRegDomain : String → Bool) (input searchpage : String)
    (h1 : parse (trimStr input) = none)
    (h2 : tryAsFile parse (trimStr input) = none)
    (h3 : tryAsDomain parse isRegDomain (trimStr input) = none) :
    (locationBarInputToUrl parse isRegDomain input searchpage =
      if strIsEmpty (trimStr input) then none
      else parse (replacePercentS searchpage (trimStr input))) ∧
    (∀ (parse2 : String → Option String) (isRegDomain2 : String → Bool)
        (input2 searchpage2 : String),
      trimStr input2 = "" → parse2 "" = none → isRegDomain2 "" = false →
      locationBarInputToUrl parse2 isRegDomain2 input2 searchpage2 = none) := by
  constructor
  · simp [locationBarInputToUrl, h1, h2, h3, tryAsSearchPage]
  · intro parse2 isRegDomain2 input2 searchpage2 htrim hp hird
    have e1 : strContains "" ' ' = false := by decide
    have e2 : isDomainLike "" = false := by decide
    have e3 : startsWithChar "" '/' = false := by decide
    have e4 : strIsEmpty "" = true := by decide
    simp [locationBarInputToUrl, htrim, hp, tryAsFile, e3, tryAsDomain, e1, hird, e2,
      tryAsSearchPage, e4]

theorem c7_witness :
    (urlParseModel (trimStr "dragonfruit") = none ∧
      tryAsFile urlParseModel (trimStr "dragonfruit") = none ∧
      tryAsDomain urlParseModel isRegDomainModel (trimStr "dragonfruit") = none) ∧
    (locationBarInputToUrl urlParseModel isRegDomainModel "dragonfruit"
        "https://duckduckgo.com/html/?q=%s" =
      if strIsEmpty (trimStr "dragonfruit") then none
      else urlParseModel
        (replacePercentS "https://duckduckgo.com/html/?q=%s" (trimStr "dragonfruit"))) ∧
    (locationBarInputToUrl urlParseModel isRegDomainModel "   "
        "https://duckduckgo.com/html/?q=%s" = none) :=
  ⟨⟨by decide, by decide, by decide⟩,
   (c7_search_fallback_raw_substitution urlParseModel isRegDomainModel "dragonfruit"
      "https://duckduckgo.com/html/?q=%s" (by decide) (by decide) (by decide)).1,
   (c7_search_fallback_raw_substitution urlParseModel isRegDomainModel "dragonfruit"
      "https://duckduckgo.com/html/?q=%s" (by decide) (by decide) (by decide)).2
      urlParseModel isRegDomainModel "   " "https://duckduckgo.com/html/?q=%s"
      (by decide) (by decide) (by decide)⟩

/- ### Claims about the view collection -/

/-- C3: `remove(id)` deletes `id` from both the views map and
`creation_order`; if `id` was active, the designation is cleared and then set
to the last element of the remaining `creation_order` (so with more than one
view present an active view remains — the most recently created survivor —
and removing the sole view leaves none); if `id` was not active, the active
view is unchanged; and `remove`, `add`, `activate_webview` and
`activate_webview_by_index` all preserve the invariant that the active id,
when set, is present in `creation_order`. -/
theorem c3_remove_reactivation_and_invariant (c : WebViewCollection) (id : Nat)
    (hinv : ActiveInvB c = true) (hnd : c.creation_order.Nodup) :
    (id ∉ (c.remove id).1.creation_order ∧
      lookupAssoc id (c.remove id).1.webviews = none) ∧
    (c.active_webview_id = some id →
      (c.remove id).1.active_webview_id =
        (c.creation_order.filter (fun x => x ≠ id)).getLast?) ∧
    (c.active_webview_id = some id → 1 < c.creation_order.length →
      ((c.creation_order.filter (fun x => x ≠ id)).getLast?).isSome = true) ∧
    (c.creation_order = [id] → (c.remove id).1.active_webview_id = none) ∧
    (c.active_webview_id ≠ some id →
      (c.remove id).1.active_webview_id = c.active_webview_id) ∧
    ActiveInvB (c.remove id).1 = true ∧
    (∀ wv, ActiveInvB (c.add wv) = true) ∧
    (∀ i c', c.activate_webview i = Except.ok c' → ActiveInvB c' = true) ∧
    (∀ i c', c.activate_webview_by_index i = Except.ok c' → ActiveInvB c' = true) := by
  have hinv' : ∀ a, c.active_webview_id = some a → a ∈ c.creation_order := by
    intro a ha
    unfold ActiveInvB at hinv
    rw [ha] at hinv
    exact of_decide_eq_true hinv
  refine ⟨⟨?_, remove_webviews_lookup c id⟩, ?_, ?_, ?_, ?_, ?_, ?_, ?_, ?_⟩
  · rw [remove_creation_order]
    simp [List.mem_filter]
  · intro hact
    exact remove_active_of_active c id hact
  · intro hact hlen
    obtain ⟨b, hb, hbne⟩ : ∃ b, b ∈ c.creation_order ∧ b ≠ id := by
      cases horder : c.creation_order with
      | nil => rw [horder] at hlen; simp at hlen
      | cons x xs =>
        cases xs with
        | nil => rw [horder] at hlen; simp at hlen
        | cons y ys =>
          by_cases hx : x = id
          · refine ⟨y, by simp, ?_⟩
            intro hy
            rw [horder] at hnd
            exact (List.nodup_cons.mp hnd).1 (by simp [hx, hy])
          · exact ⟨x, by simp, hx⟩
    have hbf : b ∈ c.creation_order.filter (fun x => x ≠ id) :=
      List.mem_filter.mpr ⟨hb, by simp [hbne]⟩
    cases hl : (c.creation_order.filter (fun x => x ≠ id)).getLast? with
    | none =>
      rw [List.getLast?_eq_none_iff] at hl
      exact absurd (hl ▸ hbf) (List.not_mem_nil b)
    | some a => rfl
  · intro horder
    by_cases hact : c.active_webview_id = some id
    · rw [remove_active_of_active c id hact, horder]
      simp
    · rw [remove_active_of_ne c id hact]
      cases ha : c.active_webview_id with
      | none => rfl
      | some a =>
        have hmem := hinv' a ha
        rw [horder] at hmem
        simp only [List.mem_singleton] at hmem
        exact absurd (hmem ▸ ha) hact
  · intro hact
    exact remove_active_of_ne c id hact
  · unfold ActiveInvB
    by_cases hact : c.active_webview_id = some id
    · rw [remove_active_of_active c id hact, remove_creation_order]
      cases hl : (c.creation_order.filter (fun x => x ≠ id)).getLast? with
      | none => rfl
      | some a =>
        obtain ⟨ys, hys⟩ := List.getLast?_eq_some_iff.mp hl
        have ham : a ∈ c.creation_order.filter (fun x => x ≠ id) := by
          rw [hys]
          exact List.mem_append.mpr (Or.inr (by simp))
        obtain ⟨ha1, ha2⟩ := List.mem_filter.mp ham
        simp only [decide_eq_true_eq] at ha2
        simp [ha1, ha2]
    · rw [remove_active_of_ne c id hact, remove_creation_order]
      cases ha : c.active_webview_id with
      | none => rfl
      | some a =>
        have hmem := hinv' a ha
        have hane : a ≠ id := by
          intro haid
          exact hact (haid ▸ ha)
        simp [List.mem_filter, hmem, hane]
  · intro wv
    unfold ActiveInvB WebViewCollection.add
    cases ha : c.active_webview_id with
    | none => rfl
    | some a =>
      have hmem := hinv' a ha
      simp [List.mem_append, hmem]
  · intro i c' h
    unfold WebViewCollection.activate_webview at h
    by_cases hm : i ∈ c.creation_order
    · rw [if_pos hm] at h
      cases h
      unfold ActiveInvB WebViewCollection.activateCore
      simp [hm]
    · rw [if_neg hm] at h
      cases h
  · intro i c' h
    unfold WebViewCollection.activate_webview_by_index at h
    cases hg : c.creation_order.get? i with
    | none => rw [hg] at h; cases h
    | some j =>
      rw [hg] at h
      have hm : j ∈ c.creation_order := List.get?_mem hg
      have h' : (if j ∈ c.creation_order then Except.ok (c.activateCore j)
          else (Except.error "assertion failed: self.creation_order.contains" :
            Except String WebViewCollection)) = Except.ok c' := h
      rw [if_pos hm] at h'
      cases h'
      unfold ActiveInvB WebViewCollection.activateCore
      simp [hm]

theorem c3_witness :
    (ActiveInvB collTwo = true ∧ collTwo.creation_order.Nodup) ∧
    (1 ∉ (collTwo.remove 1).1.creation_order ∧
      lookupAssoc 1 (collTwo.remove 1).1.webviews = none) ∧
    ((collTwo.remove 1).1.active_webview_id =
      (collTwo.creation_order.filter (fun x => x ≠ 1)).getLast?) ∧
    (((collTwo.creation_order.filter (fun x => x ≠ 1)).getLast?).isSome = true) ∧
    ActiveInvB (collTwo.remove 1).1 = true ∧
    ActiveInvB (collTwo.add wvOne) = true ∧
    ActiveInvB (collTwo.activateCore 0) = true ∧
    ((collOne.remove 0).1.active_webview_id = none) :=
  ⟨⟨by decide, by decide⟩,
   (c3_remove_reactivation_and_invariant collTwo 1 (by decide) (by decide)).1,
   (c3_remove_reactivation_and_invariant collTwo 1 (by decide) (by decide)).2.1 (by decide),
   (c3_remove_reactivation_and_invariant collTwo 1 (by decide) (by decide)).2.2.1
     (by decide) (by decide),
   (c3_remove_reactivation_and_invariant collTwo 1 (by decide) (by decide)).2.2.2.2.2.1,
   (c3_remove_reactivation_and_invariant collTwo 1 (by decide) (by decide)).2.2.2.2.2.2.1
     wvOne,
   (c3_remove_reactivation_and_invariant collTwo 1 (by decide)
       (by decide)).2.2.2.2.2.2.2.1 0 (collTwo.activateCore 0) (by rfl),
   (c3_remove_reactivation_and_invariant collOne 0 (by decide) (by decide)).2.2.2.1
     (by decide)⟩

/- ### Claims about unknown-identifier handling -/

/-- C8: activating an identifier not in `creation_order` (directly or through
an out-of-range index), and resolving a webview identifier owned by no
window, abort loudly (`Except.error` embeds the Rust `assert!`/`expect`
panic) rather than returning normally or being silently ignored; when the
identifier is known (in `creation_order`, an in-range index, or an owning
window exists) the operations succeed and cannot reach the abort. -/
theorem c8_unknown_identifier_aborts (c : WebViewCollection) (id index : Nat)
    (s : RunningAppState) (webview_id : Nat) :
    (id ∉ c.creation_order →
      c.activate_webview id =
        Except.error "assertion failed: self.creation_order.contains") ∧
    (id ∈ c.creation_order →
      c.activate_webview id = Except.ok (c.activateCore id)) ∧
    (c.creation_order.length ≤ index →
      c.activate_webview_by_index index =
        Except.error "Tried to activate an unknown WebView") ∧
    (∀ i, c.creation_order.get? index = some i →
      c.activate_webview_by_index index = Except.ok (c.activateCore i)) ∧
    ((∀ p ∈ s.windows, p.2.contains_webview webview_id = false) →
      s.window_for_webview_id webview_id =
        Except.error "Looking for unexpected WebView") ∧
    (∀ w, s.maybe_window_for_webview_id webview_id = some w →
      s.window_for_webview_id webview_id = Except.ok w) := by
  refine ⟨?_, ?_, ?_, ?_, ?_, ?_⟩
  · intro h
    unfold WebViewCollection.activate_webview
    rw [if_neg h]
  · intro h
    unfold WebViewCollection.activate_webview
    rw [if_pos h]
  · intro h
    unfold WebViewCollection.activate_webview_by_index
    rw [List.get?_eq_none.mpr h]
  · intro i hi
    unfold WebViewCollection.activate_webview_by_index
    rw [hi]
    show (if i ∈ c.creation_order then Except.ok (c.activateCore i)
      else (Except.error "assertion failed: self.creation_order.contains" :
        Except String WebViewCollection)) = Except.ok (c.activateCore i)
    rw [if_pos (List.get?_mem hi)]
  · intro h
    unfold RunningAppState.window_for_webview_id RunningAppState.maybe_window_for_webview_id
    rw [List.find?_eq_none.mpr (by simpa using h)]
    rfl
  · intro w hw
    unfold RunningAppState.window_for_webview_id
    rw [hw]

theorem c8_witness :
    (5 ∉ collTwo.creation_order ∧
      collTwo.activate_webview 5 =
        Except.error "assertion failed: self.creation_order.contains") ∧
    (collTwo.activate_webview 0 = Except.ok (collTwo.activateCore 0)) ∧
    (collTwo.creation_order.length ≤ 9 ∧
      collTwo.activate_webview_by_index 9 =
        Except.error "Tried to activate an unknown WebView") ∧
    (collTwo.activate_webview_by_index 1 = Except.ok (collTwo.activateCore 1)) ∧
    ((∀ p ∈ stateRun.windows, p.2.contains_webview 5 = false) ∧
      stateRun.window_for_webview_id 5 =
        Except.error "Looking for unexpected WebView") ∧
    (stateRun.window_for_webview_id 0 = Except.ok 1) :=
  ⟨⟨by decide,
    (c8_unknown_identifier_aborts collTwo 5 0 stateRun 0).1 (by decide)⟩,
   (c8_unknown_identifier_aborts collTwo 0 0 stateRun 0).2.1 (by decide),
   ⟨by decide,
    (c8_unknown_identifier_aborts collTwo 0 9 stateRun 0).2.2.1 (by decide)⟩,
   (c8_unknown_identifier_aborts collTwo 0 1 stateRun 0).2.2.2.1 1 (by decide),
   ⟨by decide,
    (c8_unknown_identifier_aborts collTwo 0 0 stateRun 5).2.2.2.2.1 (by decide)⟩,
   (c8_unknown_identifier_aborts collTwo 0 0 stateRun 0).2.2.2.2.2 1 (by decide)⟩

/- ### Claims about the window -/

/-- C10: closing a view by identifier on a window whose collection does not
contain that identifier (with the collection well-formed: every id in
`creation_order` is in the views map, and the active id, when set, is in
`creation_order`) leaves the window completely unchanged — collection, dirty
flags, pending favicon loads and the platform window's embedder controls all
keep their prior values. -/
theorem c10_close_unknown_webview_noop (w : ServoShellWindow) (id : Nat)
    (hc : w.webview_collection.contains id = false)
    (horder : ∀ x ∈ w.webview_collection.creation_order,
      (lookupAssoc x w.webview_collection.webviews).isSome = true)
    (hinv : ActiveInvB w.webview_collection = true) :
    w.close_webview id = w := by
  have hlook : lookupAssoc id w.webview_collection.webviews = none := by
    unfold WebViewCollection.contains at hc
    cases hl : lookupAssoc id w.webview_collection.webviews with
    | none => rfl
    | some v => rw [hl] at hc; simp at hc
  have hnotin : id ∉ w.webview_collection.creation_order := by
    intro hm
    have hs := horder id hm
    rw [hlook] at hs
    simp at hs
  have hfilter : w.webview_collection.creation_order.filter (fun x => x ≠ id) =
      w.webview_collection.creation_order := by
    refine List.filter_eq_self.mpr ?_
    intro a ha
    simp only [decide_eq_true_eq]
    intro haid
    exact hnotin (haid ▸ ha)
  have hmap : removeAssoc id w.webview_collection.webviews =
      w.webview_collection.webviews := by
    unfold removeAssoc
    refine List.filter_eq_self.mpr ?_
    intro p hp
    simp only [decide_eq_true_eq]
    exact (lookupAssoc_none_iff id _).mp hlook p hp
  have hact : ¬w.webview_collection.active_webview_id = some id := by
    intro ha
    unfold ActiveInvB at hinv
    rw [ha] at hinv
    exact hnotin (of_decide_eq_true hinv)
  simp only [ServoShellWindow.close_webview, WebViewCollection.remove, hlook, hfilter,
    hmap, if_neg hact]

theorem c10_witness :
    (winOne.webview_collection.contains 5 = false ∧
      (∀ x ∈ winOne.webview_collection.creation_order,
        (lookupAssoc x winOne.webview_collection.webviews).isSome = true) ∧
      ActiveInvB winOne.webview_collection = true) ∧
    winOne.close_webview 5 = winOne :=
  ⟨⟨by decide, by decide, by decide⟩,
   c10_close_unknown_webview_noop winOne 5 (by decide) (by decide) (by decide)⟩

/- ### Claims about the coordinator tick -/

/-- C2 as stated is false on the code: the pruning `retain` keeps a window
only when `!exit_scheduled && !should_close`, so once exit is scheduled the
predicate is false for every window and pruning removes them all — here a
state with exit scheduled and one window that should not close ends the
pruning step with an empty window set, not an unchanged one. -/
theorem c2_counterexample :
    stateExit.exit_scheduled = true ∧
    (∀ p ∈ stateExit.windows, p.2.should_close = false) ∧
    (pruneWindows stateExit).windows = [] ∧
    (pruneWindows stateExit).windows ≠ stateExit.windows := by decide

/-- C2 amended: in the window-pruning step of a tick, if exit has already
been scheduled then every window is removed (regardless of its
`should_close` state); when exit is not scheduled, exactly the windows with
`should_close` true are removed and all other windows remain. -/
theorem c2_amended_prune_empties_once_exit_scheduled (s : RunningAppState) :
    (s.exit_scheduled = true → (pruneWindows s).windows = []) ∧
    (s.exit_scheduled = false →
      ∀ p, p ∈ (pruneWindows s).windows ↔
        p ∈ s.windows ∧ p.2.should_close = false) := by
  constructor
  · intro h
    simp [pruneWindows, h]
  · intro h p
    simp [pruneWindows, h, List.mem_filter]

theorem c2_witness :
    (stateExit.exit_scheduled = true ∧ (pruneWindows stateExit).windows = []) ∧
    (stateRun.exit_scheduled = false ∧
      ((1, winOne) ∈ (pruneWindows stateRun).windows ↔
        (1, winOne) ∈ stateRun.windows ∧ winOne.should_close = false) ∧
      ((2, winClosing) ∈ (pruneWindows stateRun).windows ↔
        (2, winClosing) ∈ stateRun.windows ∧ winClosing.should_close = false)) :=
  ⟨⟨by decide,
    (c2_amended_prune_empties_once_exit_scheduled stateExit).1 (by decide)⟩,
   ⟨by decide,
    (c2_amended_prune_empties_once_exit_scheduled stateRun).2 (by decide) (1, winOne),
    (c2_amended_prune_empties_once_exit_scheduled stateRun).2 (by decide) (2, winClosing)⟩⟩

/-- C4: a tick whose pruning step leaves the window set empty sets
`exit_scheduled`; the tick returns the negation of the final
`exit_scheduled`; and since nothing ever clears the flag (the opaque engine
and UI-refresh phases at most preserve it, per the hypotheses), once it is
set every subsequent tick keeps it set and returns `continue = false`. -/
theorem c4_exit_schedule_latch (engineStep uiRefresh : RunningAppState → RunningAppState)
    (s : RunningAppState)
    (hEngine : ∀ t, t.exit_scheduled = true → (engineStep t).exit_scheduled = true)
    (hUi : ∀ t, t.exit_scheduled = true → (uiRefresh t).exit_scheduled = true) :
    ((pruneWindows (uiRefresh (engineStep s))).windows = [] →
      (spinEventLoop engineStep uiRefresh s).1.exit_scheduled = true) ∧
    ((spinEventLoop engineStep uiRefresh s).2 =
      !(spinEventLoop engineStep uiRefresh s).1.exit_scheduled) ∧
    (s.exit_scheduled = true →
      ∀ n, (spinIterState engineStep uiRefresh n s).exit_scheduled = true ∧
        (spinEventLoop engineStep uiRefresh
          (spinIterState engineStep uiRefresh n s)).2 = false) := by
  have hstep : ∀ t : RunningAppState, t.exit_scheduled = true →
      (spinEventLoop engineStep uiRefresh t).1.exit_scheduled = true ∧
      (spinEventLoop engineStep uiRefresh t).2 = false := by
    intro t ht
    have hprune : (pruneWindows (uiRefresh (engineStep t))).exit_scheduled = true :=
      hUi _ (hEngine _ ht)
    unfold spinEventLoop
    by_cases hempty : (pruneWindows (uiRefresh (engineStep t))).windows.isEmpty = true
    · simp [hempty, RunningAppState.schedule_exit]
    · simp [hempty, hprune]
  refine ⟨?_, ?_, ?_⟩
  · intro h
    have hempty : (pruneWindows (uiRefresh (engineStep s))).windows.isEmpty = true := by
      rw [List.isEmpty_iff]
      exact h
    unfold spinEventLoop
    simp [hempty, RunningAppState.schedule_exit]
  · unfold spinEventLoop
    by_cases hempty : (pruneWindows (uiRefresh (engineStep s))).windows.isEmpty = true <;>
      simp [hempty]
  · intro hs n
    induction n generalizing s with
    | zero => exact ⟨hs, (hstep s hs).2⟩
    | succ n ih => exact ih _ (hstep s hs).1

theorem c4_witness :
    ((pruneWindows (id (id stateExit))).windows = [] ∧
      (spinEventLoop id id stateExit).1.exit_scheduled = true) ∧
    ((spinEventLoop id id stateRun).2 =
      !(spinEventLoop id id stateRun).1.exit_scheduled) ∧
    (stateExit.exit_scheduled = true ∧
      (spinIterState id id 3 stateExit).exit_scheduled = true ∧
      (spinEventLoop id id (spinIterState id id 3 stateExit)).2 = false) :=
  ⟨⟨by decide,
    (c4_exit_schedule_latch id id stateExit (fun _ h => h) (fun _ h => h)).1 (by decide)⟩,
   (c4_exit_schedule_latch id id stateRun (fun _ h => h) (fun _ h => h)).2.1,
   ⟨by decide,
    ((c4_exit_schedule_latch id id stateExit (fun _ h => h) (fun _ h => h)).2.2
      (by decide) 3).1,
    ((c4_exit_schedule_latch id id stateExit (fun _ h => h) (fun _ h => h)).2.2
      (by decide) 3).2⟩⟩

/- ### Claims about command application -/

/-- C1 as stated is false on the code: `handle_interface_commands_for_window`
reacts to a failed location resolution with `break`, which abandons the whole
remaining batch — with buffer `[Go "bad input that fails", Reload]` on a
window with an active webview the applied batch issues no engine call at all
(in particular no reload), whereas `[Reload]` alone issues the reload. -/
theorem c1_counterexample :
    locationBarInputToUrl urlParseModel isRegDomainModel "bad input that fails" "%s" =
      none ∧
    winOne.active_webview = some wvZero ∧
    (handleInterfaceCommandsForWindow urlParseModel isRegDomainModel "%s"
      [UserInterfaceCommand.Go "bad input that fails", UserInterfaceCommand.Reload]
      winOne 10).2.2 = [] ∧
    (handleInterfaceCommandsForWindow urlParseModel isRegDomainModel "%s"
      [UserInterfaceCommand.Reload] winOne 10).2.2 = [EngineCall.reload 0] := by decide

/-- C1 amended: for every window command batch containing a `Go` (Navigate)
command whose text fails address resolution, applying the batch logs a
diagnostic and stops processing the batch at that command: the window keeps
only the effects of the commands before the failing `Go` plus its
`needs_update` mark, no engine call is issued for it, and the remaining
queued commands of the same batch are discarded (here stated at the failing
command: the result is independent of the remaining commands `rest`). -/
theorem c1_amended_go_failure_stops_batch (parse : String → Option String)
    (isRegDomain : String → Bool) (searchpage location : String)
    (rest : List UserInterfaceCommand) (w : ServoShellWindow) (fresh : Nat)
    (hfail : locationBarInputToUrl parse isRegDomain location searchpage = none) :
    handleInterfaceCommandsForWindow parse isRegDomain searchpage
      (UserInterfaceCommand.Go location :: rest) w fresh =
      (w.set_needs_update, fresh, []) := by
  simp [handleInterfaceCommandsForWindow, hfail]

theorem c1_witness :
    locationBarInputToUrl urlParseModel isRegDomainModel "bad input that fails" "%s" =
      none ∧
    handleInterfaceCommandsForWindow urlParseModel isRegDomainModel "%s"
      [UserInterfaceCommand.Go "bad input that fails", UserInterfaceCommand.Reload]
      winOne 10 = (winOne.set_needs_update, 10, []) :=
  ⟨by decide,
   c1_amended_go_failure_stops_batch urlParseModel isRegDomainModel "%s"
     "bad input that fails" [UserInterfaceCommand.Reload] winOne 10 (by decide)⟩

/- ### Claims about snapshot iteration -/

/-- C9: command application in a tick iterates over a snapshot of the window
set taken at tick start — for every callback (which may add or remove live
windows), the trace of drained windows is exactly the tick-start live list,
so every tick-start window is drained exactly once and a window not live at
tick start (for instance one created during the tick) never appears; and the
drain itself atomically empties the window's buffer, returning its
contents. -/
theorem c9_snapshot_drains_tick_start_windows
    (callback : WindowStore → Nat → List UserInterfaceCommand → WindowStore)
    (s : WindowStore) (id : Nat) :
    ((foreachWindowAndInterfaceCommands callback s).2.map Prod.fst = s.live) ∧
    (id ∉ s.live →
      ∀ e ∈ (foreachWindowAndInterfaceCommands callback s).2, e.1 ≠ id) ∧
    (∀ heap i w, lookupWindow i heap = some w →
      (takeUserInterfaceCommands heap i).2 = w.command_buffer ∧
      lookupWindow i (takeUserInterfaceCommands heap i).1 =
        some { w with command_buffer := [] }) := by
  refine ⟨foreachGo_trace_ids callback s.live s, ?_, ?_⟩
  · intro hnot e he heq
    apply hnot
    rw [← foreachGo_trace_ids callback s.live s]
    exact List.mem_map.mpr ⟨e, he, heq⟩
  · intro heap i w hw
    exact ⟨by simp [takeUserInterfaceCommands, hw], lookupWindow_take heap i w hw⟩

theorem c9_witness :
    ((foreachWindowAndInterfaceCommands (fun t _ _ => t) storeOne).2.map Prod.fst =
      storeOne.live) ∧
    (5 ∉ storeOne.live ∧
      (1, [UserInterfaceCommand.Reload]) ∈
        (foreachWindowAndInterfaceCommands (fun t _ _ => t) storeOne).2 ∧
      (1, [UserInterfaceCommand.Reload]).1 ≠ 5) ∧
    (lookupWindow 1 storeOne.store =
      some { winOne with command_buffer := [UserInterfaceCommand.Reload] } ∧
      (takeUserInterfaceCommands storeOne.store 1).2 =
        ({ winOne with command_buffer := [UserInterfaceCommand.Reload] } :
          ServoShellWindow).command_buffer ∧
      lookupWindow 1 (takeUserInterfaceCommands storeOne.store 1).1 =
        some { { winOne with command_buffer := [UserInterfaceCommand.Reload] } with
          command_buffer := ([] : List UserInterfaceCommand) }) :=
  ⟨(c9_snapshot_drains_tick_start_windows (fun t _ _ => t) storeOne 5).1,
   ⟨by decide, by decide,
    (c9_snapshot_drains_tick_start_windows (fun t _ _ => t) storeOne 5).2.1 (by decide)
      (1, [UserInterfaceCommand.Reload]) (by decide)⟩,
   ⟨by decide,
    (c9_snapshot_drains_tick_start_windows (fun t _ _ => t) storeOne 5).2.2
      storeOne.store 1 { winOne with command_buffer := [UserInterfaceCommand.Reload] }
      (by decide)⟩⟩

end ServoShell
